import Mathlib

/-!
Shallow embedding of `aml_services/scoring/parallel_batchscore.py`.

The module holds three pieces of logic:
  * `parse_args` — a manual scan of the argument vector for the four flags
    `--model_name`, `--model_version`, `--model_tag_name`, `--model_tag_value`;
  * `init` — the per-worker initialization hook (parse, registry lookup,
    artifact load) with a blanket `except` that logs and swallows;
  * `run` — the per-batch scoring hook: a sequential per-row prediction loop
    followed by a pandas `join` of the score column onto the input frame.

Python exceptions are modelled with `Except String`; the swallowing hooks
return total values together with the list of printed log lines.  Pandas
data frames are modelled with an explicit integer index, since `run` joins
the freshly 0-indexed score column onto the input frame by index label.
-/

/-- Model of Python `str.strip()` with no argument: drop leading and trailing
whitespace.  (Defined over the character list so that it reduces in the
kernel; `String.trim` is well-founded recursion and does not.) -/
def pyStrip (s : String) : String :=
  ⟨((s.data.dropWhile Char.isWhitespace).reverse.dropWhile Char.isWhitespace).reverse⟩

/-- One scan of the comprehension
`[(argv[i], argv[i+1]) for i, itm in enumerate(argv) if itm == flag]`:
collects `(flag, following token)` pairs at every position where the token
equals `flag`, and raises `IndexError` when the flag sits at the last
position (Python would evaluate `argv[i+1]` out of range). -/
def flagPairs (flag : String) : List String → Except String (List (String × String))
  | [] => Except.ok []
  | x :: rest =>
    if x == flag then
      match rest with
      | [] => Except.error ("IndexError: list index out of range")
      | y :: _ => do
        let tail ← flagPairs flag rest
        Except.ok ((x, y) :: tail)
    else flagPairs flag rest

/-- The list `[model_name, model_version, model_tag_name, model_tag_value]`
returned by `parse_args`, with Python `None` as `Option.none`. -/
structure ModelFilter where
  model_name : String
  model_version : Option String
  model_tag_name : Option String
  model_tag_value : Option String
deriving Repr, DecidableEq

/-- Embedding of `parse_args` (lines 12-73 of the source).  The scans run in
source order; a missing `--model_name` raises `ValueError`.  The optional
flags resolve to `none` when absent or when their value is blank after
`strip()` — except `model_tag_value`, whose blank check reads
`model_tag_name_param[0][1]` (line 69 of the source), so a present tag value
with no tag-name flag at all raises `IndexError`. -/
def parse_args (argv : List String) : Except String ModelFilter := do
  let model_name_param ← flagPairs ("--model_name") argv
  match model_name_param with
  | [] =>
      Except.error
        ("ValueError: Model name is required but no model name parameter was passed to the script")
  | (_, first_name) :: _ =>
    let model_name := first_name
    let model_version_param ← flagPairs ("--model_version") argv
    let model_version :=
      match model_version_param with
      | [] => none
      | (_, v) :: _ => if (pyStrip v).length == 0 then none else some v
    let model_tag_name_param ← flagPairs ("--model_tag_name") argv
    let model_tag_name :=
      match model_tag_name_param with
      | [] => none
      | (_, t) :: _ => if (pyStrip t).length == 0 then none else some t
    let model_tag_value_param ← flagPairs ("--model_tag_value") argv
    let model_tag_value ←
      match model_tag_value_param with
      | [] => pure none
      | (_, v) :: _ =>
        match model_tag_name_param with
        | [] => Except.error ("IndexError: list index out of range")
        | (_, t) :: _ => pure (if (pyStrip t).length == 0 then none else some v)
    Except.ok ⟨model_name, model_version, model_tag_name, model_tag_value⟩

/-- The deserialized predictor held in the module-level `model` variable: a
single-row `predict` taking the feature vector of the row (numeric cells modelled
as integers) and either returning a score or raising. -/
abbrev Model := List Int → Except String Int

/-- `model.predict(...)` where `model` is the module-level global: when the
global still holds its initial `None`, Python raises `AttributeError`
(NoneType has no attribute predict); otherwise it calls the predictor. -/
def predictOf : Option Model → List Int → Except String Int
  | none, _ => Except.error ("AttributeError: NoneType object has no attribute predict")
  | some m, row => m row

/-- The pandas `DataFrame` passed to `run`: named columns, an explicit
integer row index (pandas joins by index label), and rows of cell values in
column order.  Each row is the `sample.values` vector handed to `predict`. -/
structure DataFrame where
  cols : List String
  index : List Int
  rows : List (List Int)
deriving Repr, DecidableEq

/-- The frame returned by `mini_batch.join(pd.DataFrame(result, columns=["score"]))`:
the original columns, index and rows, plus a trailing `score` column whose
cell is `none` where the left join found no matching label (pandas NaN). -/
structure ScoredFrame where
  cols : List String
  index : List Int
  rows : List (List Int)
  score : List (Option Int)
deriving Repr, DecidableEq

/-- The prediction loop of `run`, instrumented with the list of rows on
which `predict` was actually invoked: each iteration calls `predict` on the
current row; the first raised exception aborts the loop, so the rows after
it are never touched.  Returns (rows predict was called on, vstacked
predictions or the exception). -/
def scoreLoopT (predict : List Int → Except String Int) :
    List (List Int) → List (List Int) × Except String (List Int)
  | [] => ([], Except.ok [])
  | r :: rs =>
    match predict r with
    | Except.error e => ([r], Except.error e)
    | Except.ok p =>
      match scoreLoopT predict rs with
      | (calls, Except.ok ps) => (r :: calls, Except.ok (p :: ps))
      | (calls, Except.error e) => (r :: calls, Except.error e)

/-- The accumulated predictions (`result` after the loop), or the first
exception raised by `predict`. -/
def scoreLoop (predict : List Int → Except String Int) (rows : List (List Int)) :
    Except String (List Int) :=
  (scoreLoopT predict rows).2

/-- The rows on which `run` invokes `model.predict`. -/
def predictCalls (predict : List Int → Except String Int) (rows : List (List Int)) :
    List (List Int) :=
  (scoreLoopT predict rows).1

/-- `mini_batch.join(pd.DataFrame(result, columns=["score"]))`: the score
frame has the fresh default index `0..n-1`, so the left join gives the row
with index label `l` the prediction at position `l` when `0 ≤ l < n`, and a
NaN (here `none`) otherwise. -/
def joinScore (mini_batch : DataFrame) (preds : List Int) : ScoredFrame :=
  { cols := mini_batch.cols ++ [("score")]
    index := mini_batch.index
    rows := mini_batch.rows
    score := mini_batch.index.map fun l =>
      if l < 0 then none else preds.get? l.toNat }

/-- The three shapes `run` can return: the Python `[]` when no row was
iterated (`result is None`), the joined frame, or — when an exception was
raised and caught — the logged message with an implicit `return None`. -/
inductive RunResult where
  | empty : RunResult
  | scored : ScoredFrame → RunResult
  | error : String → RunResult
deriving Repr, DecidableEq

/-- Embedding of `run` (lines 102-131 of the source): iterate the rows,
predict each, vstack; on zero rows return `[]`; on success join the score
column onto the batch; any exception is caught, printed, and the hook falls
through returning `None` (the `RunResult.error` constructor carries the
printed message). -/
def run (model : Option Model) (mini_batch : DataFrame) : RunResult :=
  match scoreLoop (predictOf model) mini_batch.rows with
  | Except.error e => RunResult.error e
  | Except.ok preds =>
    if mini_batch.rows.isEmpty then RunResult.empty
    else RunResult.scored (joinScore mini_batch preds)

/-- The identity (name and version) returned by the registry lookup
`get_model` in `utils.model_helper`, consumed by `init`. -/
structure AmlModel where
  name : String
  version : Nat
deriving Repr, DecidableEq

/-- The body of `init`s `try` block (lines 82-97 of the source): parse the
argument vector, look the filter up in the registry (`get_model`), resolve
the artifact path (`Model.get_model_path`) and deserialize it
(`joblib.load`).  The three collaborators are external and passed as
functions; any of the four steps can raise.  Returns the loaded model and
the parsed model name (used by the final `print`). -/
def initBody (argv : List String)
    (get_model : String → Option String → Option String → Option String → Except String AmlModel)
    (get_model_path : String → Nat → Except String String)
    (joblib_load : String → Except String Model) :
    Except String (Model × String) := do
  let model_filter ← parse_args argv
  let amlmodel ← get_model model_filter.model_name model_filter.model_version
      model_filter.model_tag_name model_filter.model_tag_value
  let modelpath ← get_model_path amlmodel.name amlmodel.version
  let m ← joblib_load modelpath
  Except.ok (m, model_filter.model_name)

/-- Embedding of `init` (lines 76-99 of the source).  `model` is the prior
value of the module-level global.  The whole body sits in
`try ... except Exception as ex: print(...)`, so every failure is caught:
`init` always returns, yielding the new value of the global (unchanged on
failure) and the list of printed lines. -/
def init (argv : List String)
    (get_model : String → Option String → Option String → Option String → Except String AmlModel)
    (get_model_path : String → Nat → Except String String)
    (joblib_load : String → Except String Model)
    (model : Option Model) : Option Model × List String :=
  match initBody argv get_model get_model_path joblib_load with
  | Except.ok (m, name) =>
      (some m, [("Initializing batch scoring script..."), ("Loaded model ") ++ name])
  | Except.error e =>
      (model, [("Initializing batch scoring script..."), ("Error: ") ++ e])

/-- A registry stub that resolves every filter to version 1 of the named
model, used to exercise `init` at concrete inputs. -/
def stub_get_model :
    String → Option String → Option String → Option String → Except String AmlModel :=
  fun n _ _ _ => Except.ok ⟨n, 1⟩

/-- An artifact-path stub: the path is the model name itself. -/
def stub_get_model_path : String → Nat → Except String String :=
  fun n _ => Except.ok n

/-- A deserialization stub returning a constant-zero predictor. -/
def stub_joblib_load : String → Except String Model :=
  fun _ => Except.ok (fun _ => Except.ok 0)

/-- A fixed-scalar predictor stub: every row scores 7. -/
def const7 : Model := fun _ => Except.ok 7

/-- The end-to-end predictor stub of the spec: `predict(x) = sum(x)`. -/
def sumModel : Model := fun r => Except.ok (r.foldl (· + ·) 0)

/-- A predictor that raises on the row `[2]` and scores 1 elsewhere. -/
def failsOn2 : Model := fun r => if r = [2] then Except.error ("boom") else Except.ok 1

/-- A 3-row batch with the default index `0, 1, 2`. -/
def batch3 : DataFrame := ⟨[("f1"), ("f2")], [0, 1, 2], [[1, 2], [3, 4], [5, 6]]⟩

/-- A 2-row batch with the default index `0, 1` (the end-to-end
example of the spec `[(f1 : 1, f2 : 2), (f1 : 3, f2 : 4)]`). -/
def batch2 : DataFrame := ⟨[("f1"), ("f2")], [0, 1], [[1, 2], [3, 4]]⟩

/-- A 3-row batch (default index) whose second row is `[2]`. -/
def batchF : DataFrame := ⟨[("f")], [0, 1, 2], [[1], [2], [3]]⟩

/-- A flag token that occurs nowhere in the vector yields no scan pairs. -/
theorem flagPairs_eq_nil (flag : String) (argv : List String) (h : flag ∉ argv) :
    flagPairs flag argv = Except.ok [] := by
  induction argv with
  | nil => rfl
  | cons x rest ih =>
    have hx : (x == flag) = false := by
      refine beq_eq_false_iff_ne.mpr fun hh => h ?_
      rw [hh]; exact List.mem_cons_self flag rest
    have hrest : flag ∉ rest := fun hm => h (List.mem_cons_of_mem x hm)
    simp [flagPairs, hx, ih hrest]

/-- Every pair the scan collects has the flag itself as first component. -/
theorem flagPairs_fst (flag : String) :
    ∀ (argv : List String) (l : List (String × String)),
      flagPairs flag argv = Except.ok l → ∀ q ∈ l, q.1 = flag := by
  intro argv
  induction argv with
  | nil =>
    intro l hl q hq
    simp only [flagPairs] at hl
    cases hl
    cases hq
  | cons x rest ih =>
    intro l hl q hq
    by_cases hx : (x == flag) = true
    · simp only [flagPairs, hx, if_true] at hl
      match rest, hl with
      | y :: rest2, hl =>
        cases h2 : flagPairs flag (y :: rest2) with
        | error e => rw [h2] at hl; simp [bind, Except.bind] at hl
        | ok tail =>
          rw [h2] at hl
          simp only [bind, Except.bind, Except.ok.injEq] at hl
          subst hl
          rcases List.mem_cons.mp hq with hq | hq
          · rw [hq]; exact beq_iff_eq.mp hx
          · exact ih tail h2 q hq
    · rw [Bool.not_eq_true] at hx
      simp only [flagPairs, hx, if_false] at hl
      exact ih l hl q hq

/-- With no `--model_name` token in the vector, `parse_args` raises the
`ValueError` of lines 30-33 of the source. -/
theorem parse_args_no_model_name (argv : List String) (h : ("--model_name") ∉ argv) :
    parse_args argv =
      Except.error
        ("ValueError: Model name is required but no model name parameter was passed to the script") := by
  have h1 := flagPairs_eq_nil ("--model_name") argv h
  simp [parse_args, h1, bind, Except.bind]

/-- When `predict` succeeds on every row, the loop calls it on all rows in
order and accumulates exactly the per-row outputs. -/
theorem scoreLoopT_all_ok (predict : List Int → Except String Int) :
    ∀ rows : List (List Int), (∀ r ∈ rows, (predict r).isOk) →
      ∃ preds, scoreLoopT predict rows = (rows, Except.ok preds) ∧
        List.Forall₂ (fun r p => predict r = Except.ok p) rows preds := by
  intro rows
  induction rows with
  | nil => exact fun _ => ⟨[], rfl, List.Forall₂.nil⟩
  | cons r rs ih =>
    intro h
    have hr : (predict r).isOk := h r (List.mem_cons_self r rs)
    cases hp : predict r with
    | error e => rw [hp] at hr; simp [Except.isOk, Except.toBool] at hr
    | ok p =>
      obtain ⟨preds, heq, hall⟩ := ih fun x hx => h x (List.mem_cons_of_mem _ hx)
      exact ⟨p :: preds, by simp [scoreLoopT, hp, heq], List.Forall₂.cons hp hall⟩

/-- When `predict` succeeds on every row before `bad` and raises `e` on
`bad`, the loop stops there: it was invoked on `pre ++ [bad]` only, and the
exception propagates to the `except` clause. -/
theorem scoreLoopT_first_error (predict : List Int → Except String Int) (e : String) :
    ∀ (pre : List (List Int)) (bad : List Int) (post : List (List Int)),
      (∀ r ∈ pre, (predict r).isOk) → predict bad = Except.error e →
      scoreLoopT predict (pre ++ bad :: post) = (pre ++ [bad], Except.error e) := by
  intro pre
  induction pre with
  | nil => intro bad post _ hbad; simp [scoreLoopT, hbad]
  | cons r rs ih =>
    intro bad post h hbad
    have hr : (predict r).isOk := h r (List.mem_cons_self r rs)
    cases hp : predict r with
    | error e2 => rw [hp] at hr; simp [Except.isOk, Except.toBool] at hr
    | ok p =>
      have hrec := ih bad post (fun x hx => h x (List.mem_cons_of_mem _ hx)) hbad
      simp [scoreLoopT, hp, hrec]

/-- Reading positions `0..n-1` out of a length-`n` list is the list itself
(with each element wrapped in `some`). -/
theorem range_map_get? (preds : List Int) :
    (List.range preds.length).map preds.get? = preds.map some := by
  induction preds with
  | nil => rfl
  | cons a as ih =>
    rw [List.length_cons, List.range_succ_eq_map, List.map_cons, List.map_map]
    have hcomp : ((a :: as).get? ∘ Nat.succ) = as.get? := funext fun i => rfl
    rw [hcomp, ih]
    rfl

/-- When the index labels of the batch are the default `0..n-1` and the loop
produced one prediction per row, the label join degenerates to the
positional zip: the score column is exactly the prediction list. -/
theorem joinScore_default_index (df : DataFrame) (preds : List Int)
    (hidx : df.index = (List.range df.rows.length).map Int.ofNat)
    (hlen : preds.length = df.rows.length) :
    joinScore df preds =
      ⟨df.cols ++ [("score")], df.index, df.rows, preds.map some⟩ := by
  unfold joinScore
  have hscore : (df.index.map fun l =>
      if l < 0 then none else preds.get? l.toNat) = preds.map some := by
    rw [hidx, ← hlen, List.map_map]
    have hfun : ∀ i : Nat,
        ((fun l : Int => if l < 0 then none else preds.get? l.toNat) ∘ Int.ofNat) i =
          preds.get? i := by
      intro i
      have : ¬ ((Int.ofNat i) < 0) := by
        rw [Int.not_lt]
        exact Int.ofNat_nonneg i
      simp [Function.comp, this, Int.toNat_ofNat]
    rw [List.map_congr_left fun i _ => hfun i]
    exact range_map_get? preds
  rw [hscore]

/-- The core of a successful scoring call: on a non-empty batch carrying the
default index, with a loaded model whose predict succeeds on every row,
`run` returns the input frame extended by a trailing `score` column holding
the per-row prediction, rows and order untouched. -/
theorem run_scores_default_index (m : Model) (df : DataFrame)
    (hne : df.rows ≠ [])
    (hidx : df.index = (List.range df.rows.length).map Int.ofNat)
    (hok : ∀ r ∈ df.rows, (m r).isOk) :
    ∃ preds, List.Forall₂ (fun r p => m r = Except.ok p) df.rows preds ∧
      run (some m) df =
        RunResult.scored ⟨df.cols ++ [("score")], df.index, df.rows, preds.map some⟩ := by
  obtain ⟨preds, heq, hall⟩ := scoreLoopT_all_ok (predictOf (some m)) df.rows hok
  have hlen : preds.length = df.rows.length := (List.Forall₂.length_eq hall).symm
  refine ⟨preds, hall, ?_⟩
  have hemp : df.rows.isEmpty = false := by
    cases hc : df.rows with
    | nil => exact absurd hc hne
    | cons x xs => rfl
  simp [run, scoreLoop, heq, hemp, joinScore_default_index df preds hidx hlen]

/-- A successful parse takes the model name verbatim from the value of the
first `--model_name` pair found by the scan. -/
theorem parse_args_ok_name (argv : List String) (mf : ModelFilter)
    (h : parse_args argv = Except.ok mf) :
    ∃ ps, flagPairs ("--model_name") argv =
      Except.ok ((("--model_name"), mf.model_name) :: ps) := by
  unfold parse_args at h
  cases h1 : flagPairs ("--model_name") argv with
  | error e => rw [h1] at h; simp [bind, Except.bind] at h
  | ok l =>
    rw [h1] at h
    simp only [bind, Except.bind] at h
    cases l with
    | nil => simp at h
    | cons hd ps =>
      obtain ⟨a, b⟩ := hd
      have ha : a = ("--model_name") :=
        flagPairs_fst _ argv _ h1 (a, b) (List.mem_cons_self _ _)
      rw [ha] at h1
      have hb : mf.model_name = b := by
        cases h2 : flagPairs ("--model_version") argv with
        | error e => rw [h2] at h; simp [bind, Except.bind] at h
        | ok lv =>
          rw [h2] at h
          simp only [bind, Except.bind] at h
          cases h3 : flagPairs ("--model_tag_name") argv with
          | error e => rw [h3] at h; simp [bind, Except.bind] at h
          | ok lt =>
            rw [h3] at h
            simp only [bind, Except.bind] at h
            cases h4 : flagPairs ("--model_tag_value") argv with
            | error e => rw [h4] at h; simp [bind, Except.bind] at h
            | ok lw =>
              rw [h4] at h
              simp only [bind, Except.bind] at h
              cases lw with
              | nil =>
                simp only [pure, Except.pure, Except.ok.injEq] at h
                rw [← h]
              | cons hw lw2 =>
                obtain ⟨c, v⟩ := hw
                cases lt with
                | nil => simp [bind, Except.bind] at h
                | cons ht lt2 =>
                  obtain ⟨d, t⟩ := ht
                  simp only [pure, Except.pure, Except.ok.injEq] at h
                  rw [← h]
      exact ⟨ps, by rw [hb, ha]⟩

/-- C1 (amended: the claim holds for batches carrying the pandas default
index `0..n-1`; see the counterexample for a non-default index).  For every
non-empty `DataFrame` whose index labels are `0..n-1` and a loaded model
whose single-row predict succeeds on every row, `run` returns the rows and columns of the input plus one trailing `score` column, where the score in each
row is the predictor output for the feature vector of that row, row order
preserved 1:1. -/
theorem c1_run_appends_score_default_index (m : Model) (df : DataFrame)
    (hne : df.rows ≠ [])
    (hidx : df.index = (List.range df.rows.length).map Int.ofNat)
    (hok : ∀ r ∈ df.rows, (m r).isOk) :
    ∃ preds, List.Forall₂ (fun r p => m r = Except.ok p) df.rows preds ∧
      run (some m) df =
        RunResult.scored ⟨df.cols ++ [("score")], df.index, df.rows, preds.map some⟩ :=
  run_scores_default_index m df hne hidx hok

/-- C1 counterexample: a 1-row batch whose index label is 5 (not the default
0) and a predictor that returns 7 on every row.  `run` returns a `score`
column holding a missing value, not the predictor output 7, so the claim
as stated over every non-empty `RowBatch` fails. -/
theorem c1_counterexample :
    run (some const7) ⟨[("f1")], [5], [[1]]⟩ =
      RunResult.scored ⟨[("f1"), ("score")], [5], [[1]], [none]⟩ ∧
    const7 [1] = Except.ok 7 :=
  ⟨by decide, rfl⟩

/-- C1 witness: the 3-row fixed-scalar instance of the amended claim. -/
theorem c1_witness :
    ∃ preds, List.Forall₂ (fun r p => const7 r = Except.ok p) batch3.rows preds ∧
      run (some const7) batch3 =
        RunResult.scored
          ⟨batch3.cols ++ [("score")], batch3.index, batch3.rows, preds.map some⟩ :=
  c1_run_appends_score_default_index const7 batch3 (by decide) (by decide) (by decide)

/-- C2 (amended: the configuration error does NOT propagate).  For every
argument vector without the token `--model_name`, the `ValueError` raised by
`parse_args` is caught by `init`s blanket `except`, the error is logged, and
`init` returns normally with the model state of the worker still `none`. -/
theorem c2_init_swallows_configuration_error (argv : List String)
    (get_model : String → Option String → Option String → Option String → Except String AmlModel)
    (get_model_path : String → Nat → Except String String)
    (joblib_load : String → Except String Model)
    (h : ("--model_name") ∉ argv) :
    init argv get_model get_model_path joblib_load none =
      (none, [("Initializing batch scoring script..."),
        ("Error: ValueError: Model name is required but no model name parameter was passed to the script")]) := by
  have h1 := parse_args_no_model_name argv h
  have h2 : initBody argv get_model get_model_path joblib_load =
      Except.error
        ("ValueError: Model name is required but no model name parameter was passed to the script") := by
    simp [initBody, h1, bind, Except.bind]
  simp [init, h2]

/-- C2 counterexample: with an empty argument vector the resolver raises its
configuration error, yet `init` (with any collaborators — here the stubs)
returns normally, logging the error and leaving the model state `none`: the
failure does not propagate out of the initialization hook. -/
theorem c2_counterexample :
    parse_args [] =
      Except.error
        ("ValueError: Model name is required but no model name parameter was passed to the script") ∧
    init [] stub_get_model stub_get_model_path stub_joblib_load none =
      (none, [("Initializing batch scoring script..."),
        ("Error: ValueError: Model name is required but no model name parameter was passed to the script")]) :=
  ⟨rfl, rfl⟩

/-- C2 witness: the amended claim at a concrete vector missing `--model_name`. -/
theorem c2_witness :
    init [("--job_id"), ("42")] stub_get_model stub_get_model_path stub_joblib_load none =
      (none, [("Initializing batch scoring script..."),
        ("Error: ValueError: Model name is required but no model name parameter was passed to the script")]) :=
  c2_init_swallows_configuration_error [("--job_id"), ("42")]
    stub_get_model stub_get_model_path stub_joblib_load (by decide)

/-- C3: when predict succeeds on every row before `bad` and raises `e` on
`bad`, the scoring hook invokes predict only on the rows up to and including
`bad` (no later row), the exception is caught and its message logged
(carried by `RunResult.error`), and `run` returns that value to its caller
instead of raising — `run` is a total function into `RunResult`. -/
theorem c3_run_aborts_after_first_error (m : Model) (df : DataFrame)
    (pre : List (List Int)) (bad : List Int) (post : List (List Int)) (e : String)
    (hsplit : df.rows = pre ++ bad :: post)
    (hpre : ∀ r ∈ pre, (m r).isOk)
    (hbad : m bad = Except.error e) :
    run (some m) df = RunResult.error e ∧
      predictCalls (predictOf (some m)) df.rows = pre ++ [bad] := by
  have hloop := scoreLoopT_first_error (predictOf (some m)) e pre bad post hpre hbad
  constructor
  · simp [run, scoreLoop, hsplit, hloop]
  · simp [predictCalls, hsplit, hloop]

/-- C3 witness: the stub raising on the second of three rows — the batch
hook returns (with the logged message), and predict never sees row 3. -/
theorem c3_witness :
    run (some failsOn2) batchF = RunResult.error ("boom") ∧
      predictCalls (predictOf (some failsOn2)) batchF.rows = [[1]] ++ [[2]] :=
  c3_run_aborts_after_first_error failsOn2 batchF [[1]] [2] [[3]] ("boom")
    (by decide) (by decide) (by rfl)

/-- C4: every failure inside `init`s body — argument-parsing error, registry
lookup error, or artifact load error, i.e. any `initBody` outcome that is an
exception — is caught at the hook boundary: `init` returns normally with the
error logged, and the global model variable keeps its prior value `none`. -/
theorem c4_init_catches_and_leaves_model_none (argv : List String)
    (get_model : String → Option String → Option String → Option String → Except String AmlModel)
    (get_model_path : String → Nat → Except String String)
    (joblib_load : String → Except String Model) (e : String)
    (h : initBody argv get_model get_model_path joblib_load = Except.error e) :
    init argv get_model get_model_path joblib_load none =
      (none, [("Initializing batch scoring script..."), ("Error: ") ++ e]) := by
  simp [init, h]

/-- C4 witness: a registry lookup failure (the `get_model` collaborator
raises) is swallowed and leaves the model state unset. -/
theorem c4_witness :
    init [("--model_name"), ("m")] (fun _ _ _ _ => Except.error ("LookupError: no model"))
      stub_get_model_path stub_joblib_load none =
      (none, [("Initializing batch scoring script..."),
        ("Error: LookupError: no model")]) :=
  c4_init_catches_and_leaves_model_none [("--model_name"), ("m")]
    (fun _ _ _ _ => Except.error ("LookupError: no model"))
    stub_get_model_path stub_joblib_load ("LookupError: no model") (by rfl)

/-- C5 (amended: the two shapes are not symmetric).  If `--model_tag_name`
is supplied (with a value that is itself none of the four flag tokens) and
`--model_tag_value` is entirely absent, the resolver returns normally with
`tag_value = none` (and `tag_name` as supplied unless blank).  The opposite
shape — `--model_tag_value` supplied without `--model_tag_name` — does not
return a `ModelFilter` at all: the blank check of line 69 indexes the empty
tag-name scan and raises `IndexError` (see the counterexample). -/
theorem c5_tag_name_without_tag_value (n t : String)
    (hn1 : n ≠ ("--model_name")) (hn2 : n ≠ ("--model_version"))
    (hn3 : n ≠ ("--model_tag_name")) (hn4 : n ≠ ("--model_tag_value"))
    (ht1 : t ≠ ("--model_name")) (ht2 : t ≠ ("--model_version"))
    (ht3 : t ≠ ("--model_tag_name")) (ht4 : t ≠ ("--model_tag_value")) :
    parse_args [("--model_name"), n, ("--model_tag_name"), t] =
      Except.ok ⟨n, none, if (pyStrip t).length == 0 then none else some t, none⟩ := by
  simp [parse_args, flagPairs, hn1, hn2, hn3, hn4, ht1, ht2, ht3, ht4,
    bind, Except.bind, pure, Except.pure]

/-- C5 counterexample: `--model_tag_value` supplied without
`--model_tag_name` makes the resolver fail with `IndexError` instead of
returning normally with the missing member treated as absent. -/
theorem c5_counterexample :
    parse_args [("--model_name"), ("m"), ("--model_tag_value"), ("v1")] =
      Except.error ("IndexError: list index out of range") :=
  rfl

/-- C5 witness: tag name `k` supplied, tag value flag absent. -/
theorem c5_witness :
    parse_args [("--model_name"), ("m"), ("--model_tag_name"), ("k")] =
      Except.ok ⟨("m"), none, some ("k"), none⟩ :=
  c5_tag_name_without_tag_value ("m") ("k") (by decide) (by decide) (by decide)
    (by decide) (by decide) (by decide) (by decide) (by decide)

/-- C6: with `--model_name`, a blank `--model_tag_name` value and a
non-blank `--model_tag_value` value (both values being none of the flag
tokens), the resolver returns `tag_value = none`: the blank-ness check for
the tag value is performed on the value of the tag name, so the explicitly
supplied non-blank tag value is suppressed. -/
theorem c6_blank_tag_name_suppresses_tag_value (n b v : String)
    (hn1 : n ≠ ("--model_name")) (hn2 : n ≠ ("--model_version"))
    (hn3 : n ≠ ("--model_tag_name")) (hn4 : n ≠ ("--model_tag_value"))
    (hv1 : v ≠ ("--model_name")) (hv2 : v ≠ ("--model_version"))
    (hv3 : v ≠ ("--model_tag_name")) (hv4 : v ≠ ("--model_tag_value"))
    (hb : (pyStrip b).length = 0) (_hv : (pyStrip v).length ≠ 0) :
    parse_args [("--model_name"), n, ("--model_tag_name"), b,
      ("--model_tag_value"), v] = Except.ok ⟨n, none, none, none⟩ := by
  have hb1 : b ≠ ("--model_name") := fun hh => absurd (hh ▸ hb) (by decide)
  have hb2 : b ≠ ("--model_version") := fun hh => absurd (hh ▸ hb) (by decide)
  have hb3 : b ≠ ("--model_tag_name") := fun hh => absurd (hh ▸ hb) (by decide)
  have hb4 : b ≠ ("--model_tag_value") := fun hh => absurd (hh ▸ hb) (by decide)
  simp [parse_args, flagPairs, hn1, hn2, hn3, hn4, hv1, hv2, hv3, hv4,
    hb1, hb2, hb3, hb4, hb, bind, Except.bind, pure, Except.pure]

/-- C6 witness: the instance pinned in the spec, `--model_tag_name ""` together
with `--model_tag_value "v1"`, resolves with `tag_value = none`. -/
theorem c6_witness :
    parse_args [("--model_name"), ("m"), ("--model_tag_name"), (""),
      ("--model_tag_value"), ("v1")] = Except.ok ⟨("m"), none, none, none⟩ :=
  c6_blank_tag_name_suppresses_tag_value ("m") ("") ("v1") (by decide) (by decide)
    (by decide) (by decide) (by decide) (by decide) (by decide) (by decide)
    (by decide) (by decide)

/-- C7: for every argument vector in which `--model_name` does not occur,
`parse_args` fails with the `ValueError` stating the model name is required,
rather than returning a `ModelFilter`. -/
theorem c7_missing_model_name_raises (argv : List String)
    (h : ("--model_name") ∉ argv) :
    parse_args argv =
      Except.error
        ("ValueError: Model name is required but no model name parameter was passed to the script") :=
  parse_args_no_model_name argv h

/-- C7 witness: a vector with only unrelated flags. -/
theorem c7_witness :
    parse_args [("--model_version"), ("3"), ("--job_id"), ("42")] =
      Except.error
        ("ValueError: Model name is required but no model name parameter was passed to the script") :=
  c7_missing_model_name_raises [("--model_version"), ("3"), ("--job_id"), ("42")]
    (by decide)

/-- C8: scoring a zero-row batch returns the empty result (`[]`, the
`RunResult.empty` shape — not a scored table and not an error) without
raising, and predict is never invoked. -/
theorem c8_empty_batch_returns_empty (model : Option Model) (df : DataFrame)
    (h : df.rows = []) :
    run model df = RunResult.empty ∧ predictCalls (predictOf model) df.rows = [] := by
  constructor
  · simp [run, scoreLoop, scoreLoopT, h]
  · simp [predictCalls, scoreLoopT, h]

/-- C8 witness: an empty batch — with no model loaded at all, which the hook
never notices since predict is not called. -/
theorem c8_witness :
    run none ⟨[("f1"), ("f2")], [], []⟩ = RunResult.empty ∧
      predictCalls (predictOf none) (DataFrame.mk [("f1"), ("f2")] [] []).rows = [] :=
  c8_empty_batch_returns_empty none ⟨[("f1"), ("f2")], [], []⟩ (by rfl)

/-- C9 (amended: the resolver does not validate the name).  Every
`ModelFilter` produced by a successful `parse_args` takes its `model_name`
verbatim from the token following the first `--model_name` occurrence; that
token — and hence the returned name — may be empty or whitespace-only, as
the counterexample shows. -/
theorem c9_name_is_first_flag_value (argv : List String) (mf : ModelFilter)
    (h : parse_args argv = Except.ok mf) :
    ∃ ps, flagPairs ("--model_name") argv =
      Except.ok ((("--model_name"), mf.model_name) :: ps) :=
  parse_args_ok_name argv mf h

/-- C9 counterexample: `--model_name` followed by the empty string parses
successfully and returns the empty (hence whitespace-only, zero-length)
model name, violating the non-empty-name invariant. -/
theorem c9_counterexample :
    parse_args [("--model_name"), ("")] = Except.ok ⟨(""), none, none, none⟩ ∧
      String.length ("") = 0 :=
  ⟨rfl, rfl⟩

/-- C9 witness: a successful parse and the scan pair its name came from. -/
theorem c9_witness :
    ∃ ps, flagPairs ("--model_name") [("--model_name"), ("m")] =
      Except.ok ((("--model_name"),
        (ModelFilter.mk ("m") none none none).model_name) :: ps) :=
  c9_name_is_first_flag_value [("--model_name"), ("m")] ⟨("m"), none, none, none⟩
    (by rfl)

/-- C10: `run` aligns predictions to input rows by pandas index label, not
by position — the score column is built with a fresh 0-based index and
joined onto the batch.  For every non-empty batch whose index labels are
exactly `0..n-1` the i-th prediction lands in the i-th row, while for a
non-empty batch whose labels are not `0..n-1` (here a single row labelled 1)
the returned `score` column holds a missing value instead of the computed
prediction. -/
theorem c10_join_aligns_by_index_label :
    (∀ (m : Model) (df : DataFrame), df.rows ≠ [] →
      df.index = (List.range df.rows.length).map Int.ofNat →
      (∀ r ∈ df.rows, (m r).isOk) →
      ∃ preds, List.Forall₂ (fun r p => m r = Except.ok p) df.rows preds ∧
        run (some m) df =
          RunResult.scored ⟨df.cols ++ [("score")], df.index, df.rows, preds.map some⟩) ∧
    run (some const7) ⟨[("f1")], [1], [[9]]⟩ =
      RunResult.scored ⟨[("f1"), ("score")], [1], [[9]], [none]⟩ :=
  ⟨fun m df h1 h2 h3 => run_scores_default_index m df h1 h2 h3, by decide⟩

/-- C10 witness: the default-indexed two-row end-to-end example with the
`sum` stub — predictions land positionally. -/
theorem c10_witness :
    ∃ preds, List.Forall₂ (fun r p => sumModel r = Except.ok p) batch2.rows preds ∧
      run (some sumModel) batch2 =
        RunResult.scored
          ⟨batch2.cols ++ [("score")], batch2.index, batch2.rows, preds.map some⟩ :=
  c10_join_aligns_by_index_label.1 sumModel batch2 (by decide) (by decide) (by decide)
